import Mathlib

/-!
Verification of the AIMQ worker core (queue.py, worker.py, logger.py,
realtime/worker.py) against its natural-language specification.

The Python code is shallowly embedded: each relevant method becomes a Lean
function over explicit state.  External effects performed during one call
(provider RPCs, the runnable invocation, log emissions, callback execution)
are recorded in a trace of `Action`s, and the outcomes of the external calls
are supplied up-front through a `WorkEnv` record, so a raised Python
exception is modelled as `Except.error`.  Timing loops are modelled in the
100 ms ticks that the source itself polls at.
-/

namespace AIMQ

/-- JSON-like values carried in job payloads (`job.data` is an opaque
JSON map to the core). -/
inductive Val where
  | str (s : String)
  | nat (n : Nat)
  | bool (b : Bool)
deriving DecidableEq, Repr

/-- A Python exception as the core distinguishes them: type name and
message (`type(e).__name__`, `str(e)`). -/
structure PyErr where
  ty : String
  msg : String
deriving DecidableEq, Repr

/-- Modelled from the spec: `src/aimq/job.py` is absent from the source
tree (queue.py imports `Job` from it).  Spec §3: a Job carries `id`,
`attempt` (read count, starts at 1), an opaque `data` map and a `popped`
flag; it is immutable after construction.  Field `popped` models the
source's `job._popped`. -/
structure Job where
  id : Nat
  attempt : Nat
  data : List (String × Val)
  popped : Bool
deriving DecidableEq, Repr

/-- The configuration fields of `Queue` (queue.py) that `work`, `run` and
`finish` read.  `hasOnError` records whether the optional `on_error`
callback is set. -/
structure QueueCfg where
  name : String
  worker_name : String
  tags : List String
  delete_on_finish : Bool
  max_retries : Option Nat
  dlq : Option String
  hasOnError : Bool
deriving Repr

/-- config.py: `queue_max_retries` defaults to 5. -/
def queue_max_retries : Nat := 5

/-- queue.py `Queue.work`: `self.max_retries if self.max_retries is not
None else config.queue_max_retries`. -/
def effectiveMaxRetries (q : QueueCfg) : Nat :=
  q.max_retries.getD queue_max_retries

/-- Log levels of logger.py `LogLevel`. -/
inductive LogLevel where
  | debug
  | info
  | warning
  | error
  | critical
deriving DecidableEq, Repr

/-- Externally visible steps taken during one `Queue.work` call.  Log
actions carry a tag naming the emitting source line rather than the full
formatted message. -/
inductive Action where
  | log (lvl : LogLevel) (tag : String)
  | providerArchive (queue : String) (id : Nat)
  | providerDelete (queue : String) (id : Nat)
  | providerSend (queue : String)
  | invokeOnError
  | finishCall (id : Nat)
deriving DecidableEq, Repr

/-- Outcomes of the external calls one `Queue.work` dispatch can make.
`Except.error e` models the call raising the Python exception `e`. -/
structure WorkEnv where
  runResult : Except PyErr Val
  finishOpResult : Except PyErr Bool
  dlqSendResult : Except PyErr Nat
  onErrorResult : Except PyErr Unit
deriving Repr

def Action.isArchive : Action → Bool
  | .providerArchive _ _ => true
  | _ => false

def Action.isDelete : Action → Bool
  | .providerDelete _ _ => true
  | _ => false

def Action.isFinishCall : Action → Bool
  | .finishCall _ => true
  | _ => false

/-- queue.py `Queue.finish`: popped jobs need no cleanup (debug log, True);
otherwise delete or archive according to `delete_on_finish`, logging and
returning False if the provider call raises.  The leading `finishCall`
action records that `finish` was invoked for this job. -/
def finish (q : QueueCfg) (env : WorkEnv) (job : Job) : List Action × Bool :=
  if job.popped then
    ([.finishCall job.id, .log .debug "popped_no_cleanup"], true)
  else
    let op : Action :=
      if q.delete_on_finish then .providerDelete q.name job.id
      else .providerArchive q.name job.id
    match env.finishOpResult with
    | .ok _ => ([.finishCall job.id, op, .log .info "finished_job"], true)
    | .error _ => ([.finishCall job.id, op, .log .error "error_finishing_job"], false)

/-- queue.py `Queue.send_to_dlq`: raises ValueError when no DLQ is set;
otherwise sends the structured envelope to the DLQ and logs a warning.
A raise from `provider.send` propagates after the send attempt. -/
def send_to_dlq (q : QueueCfg) (env : WorkEnv) : List Action × Except PyErr Nat :=
  match q.dlq with
  | none => ([], .error ⟨"ValueError", "No DLQ configured"⟩)
  | some d =>
    match env.dlqSendResult with
    | .ok i => ([.providerSend d, .log .warning "sent_to_dlq"], .ok i)
    | .error de => ([.providerSend d], .error de)

/-- queue.py `Queue.work`, from the point where `next()` has produced
`jobOpt`.  Returns the action trace and the call outcome; `Except.error`
models an exception propagating to the caller.  Faithful points: the
`on_error` callback is guarded (its exception is logged and swallowed);
when the DLQ send raises, the bare `raise` inside
`except Exception as dlq_error` re-raises `dlq_error`; the final bare
`raise` re-raises the original exception `e`. -/
def work (q : QueueCfg) (env : WorkEnv) (jobOpt : Option Job) :
    List Action × Except PyErr (Option Val) :=
  match jobOpt with
  | none => ([], .ok none)
  | some job =>
    let m := effectiveMaxRetries q
    let header : List Action := [.log .info "processing_job"]
    match env.runResult with
    | .ok result =>
      let ft := (finish q env job).fst
      (header ++ [.log .info "job_processed_successfully"] ++ ft, .ok (some result))
    | .error e =>
      let onErrTrace : List Action :=
        if q.hasOnError then
          match env.onErrorResult with
          | .ok _ => [.invokeOnError]
          | .error _ => [.invokeOnError, .log .error "error_in_on_error_handler"]
        else []
      let pre := header ++ [.log .error "error_processing_job"] ++ onErrTrace
      if m ≤ job.attempt then
        match q.dlq with
        | some _ =>
          match send_to_dlq q env with
          | (dt, .ok _) =>
            let ft := (finish q env job).fst
            (pre ++ dt ++ ft, .ok none)
          | (dt, .error dlqError) =>
            (pre ++ dt ++ [.log .error "failed_to_send_to_dlq"], .error dlqError)
        | none =>
          let ft := (finish q env job).fst
          (pre ++ [.log .warning "max_retries_no_dlq"] ++ ft, .ok none)
      else
        (pre, .error e)

/-- Python dict lookup `d[k]` / `k in d` on the association-list model of a
payload (dict keys are unique, so first match suffices). -/
def dictGet (key : String) : List (String × Val) → Option Val
  | [] => none
  | (k, v) :: rest => if k = key then some v else dictGet key rest

/-- The runtime config built by queue.py `Queue.get_runtime_config`,
flattened to the fields the core writes. -/
structure RunnableCfg where
  metadata_worker : String
  metadata_queue : String
  metadata_job : Nat
  tags : List String
  configurable_thread_id : Val
deriving DecidableEq, Repr

/-- queue.py `Queue.get_runtime_config`: thread_id from `job.data` when
present, else the synthesized string `job-<id>`. -/
def get_runtime_config (q : QueueCfg) (job : Job) : RunnableCfg :=
  let threadId : Val :=
    match dictGet "thread_id" job.data with
    | some v => v
    | none => .str ("job-" ++ toString job.id)
  { metadata_worker := q.worker_name
    metadata_queue := q.name
    metadata_job := job.id
    tags := q.tags
    configurable_thread_id := threadId }

/-- queue.py `Queue.run`: the input dict passed to `runnable.invoke` is
`job.data` with the `thread_id` key filtered out. -/
def run_input (job : Job) : List (String × Val) :=
  job.data.filter (fun kv => !(kv.fst == "thread_id"))

/-- config.py: `queue_backoff_multiplier` defaults to 2.0. -/
def queue_backoff_multiplier : ℚ := 2

/-- config.py: `queue_max_backoff` defaults to 300.0 seconds. -/
def queue_max_backoff : ℚ := 300

/-- The per-pass state of `WorkerThread.run` (worker.py) that one queue
dispatch reads and writes: the per-queue `consecutive_failures` map, the
shared `current_backoff`, and the pass-local `found_jobs` / `had_errors`
flags. -/
structure LoopState where
  consecutive_failures : String → Nat
  current_backoff : ℚ
  found_jobs : Bool
  had_errors : Bool

/-- worker.py `WorkerThread.run`, the per-queue dispatch guard (lines
90-131): on a non-None result mark `found_jobs`, zero that queue's failure
counter and reset `current_backoff` to `idle_wait`; a None result changes
nothing; on an exception mark `had_errors`, bump the counter and, when it
exceeds 1, set the exponential backoff capped at `queue_max_backoff`. -/
def dispatchQueue (idle_wait : ℚ) (qname : String) (st : LoopState)
    (outcome : Except PyErr (Option Val)) : LoopState :=
  match outcome with
  | .ok (some _) =>
    { st with
      found_jobs := true
      consecutive_failures := fun n => if n = qname then 0 else st.consecutive_failures n
      current_backoff := idle_wait }
  | .ok none => st
  | .error _ =>
    let f := st.consecutive_failures qname + 1
    { st with
      had_errors := true
      consecutive_failures := fun n => if n = qname then f else st.consecutive_failures n
      current_backoff :=
        if 1 < f then min (idle_wait * queue_backoff_multiplier ^ (f - 1)) queue_max_backoff
        else st.current_backoff }

/-- How the interruptible idle sleep of `WorkerThread.run` ended. -/
inductive SleepEnd where
  | timeout
  | shutdown
  | wake
deriving DecidableEq, Repr

/-- The inner polling loop of the idle sleep (worker.py lines 147-160),
in 100 ms ticks: at tick `i` (with `fuel` ticks of the backoff window
remaining) check the shared `running` flag, then the wakeup event, and
otherwise sleep one tick.  `running i` / `wake i` give the values the two
flags are sampled at on tick `i`.  Returns the tick the loop exited at and
why. -/
def sleepLoop (running wake : Nat → Bool) : Nat → Nat → Nat × SleepEnd
  | i, 0 => (i, .timeout)
  | i, fuel + 1 =>
    if running i = false then (i, .shutdown)
    else if wake i = true then (i, .wake)
    else sleepLoop running wake (i + 1) fuel

/-- Result of one idle sleep: ticks elapsed, exit reason, and the value of
`current_backoff` afterwards. -/
structure SleepResult where
  elapsed : Nat
  reason : SleepEnd
  backoff : ℚ
deriving Repr

/-- The whole interruptible idle sleep (worker.py lines 142-160): poll for
at most `backoffTicks` ticks; only the wake branch writes
`current_backoff` (to `idle_wait`) before breaking. -/
def idleSleep (running wake : Nat → Bool) (backoffTicks : Nat)
    (idle_wait current_backoff : ℚ) : SleepResult :=
  let r := sleepLoop running wake 0 backoffTicks
  { elapsed := r.fst
    reason := r.snd
    backoff := if r.snd = .wake then idle_wait else current_backoff }

/-- Queue.timeout (queue.py) defaults to 300 seconds of visibility
timeout. -/
def queueDefaultTimeout : Nat := 300

/-- worker.py `Worker.stop` (line 481): `self.thread.join(timeout=10.0)`.
The join timeout is this fixed constant; the configured queue timeout is
never consulted. -/
def stopJoinTimeout : ℚ := 10

/-- What `Worker.stop` does after the bounded join, as a function of
whether the thread is still alive. -/
structure StopOutcome where
  warned : Bool
  exited : Bool
  raised : Bool
deriving DecidableEq, Repr

/-- worker.py `Worker.stop` lines 483-497: a thread still alive after the
join produces a warning log; in neither case does `stop` exit the process
or raise. -/
def stopAfterJoin (threadAlive : Bool) : StopOutcome :=
  if threadAlive then { warned := true, exited := false, raised := false }
  else { warned := false, exited := false, raised := false }

/-- logger.py `LogLevel.__ge__`: compare positions in the enumeration
order debug < info < warning < error < critical. -/
def LogLevel.idx : LogLevel → Nat
  | .debug => 0
  | .info => 1
  | .warning => 2
  | .error => 3
  | .critical => 4

/-- logger.py `event.level >= level`. -/
def LogLevel.ge (a b : LogLevel) : Bool := b.idx ≤ a.idx

/-- An entry of the Logger FIFO as the drain loop sees it. -/
structure LogEvent where
  level : LogLevel
  msg : String
deriving DecidableEq, Repr

/-- The Logger FIFO contents, in order; `none` is the sentinel that
`Logger.stop` enqueues. -/
def LogQueue : Type := List (Option LogEvent)

/-- logger.py `Logger.events` body, if iterated: yield events until the
sentinel appears. -/
def loggerEventsDrained : List (Option LogEvent) → List LogEvent
  | [] => []
  | none :: _ => []
  | some e :: rest => e :: loggerEventsDrained rest

/-- logger.py `Logger.print` body, if its generator were iterated: drain
events until the sentinel and print those whose level is at least `lvl`.
Returns the printed events. -/
def loggerPrintIterated (lvl : LogLevel) (q : List (Option LogEvent)) : List LogEvent :=
  (loggerEventsDrained q).filter (fun e => e.level.ge lvl)

/-- A Python generator object: calling a generator function (a `def`
whose body contains `yield`, as `Logger.print` does) only builds this
suspended computation; the body runs solely when the object is iterated. -/
structure PyGen (α : Type) where
  runBody : Unit → α

/-- Calling `Logger.print`: builds the generator without running the
body. -/
def loggerPrintCall (lvl : LogLevel) (q : List (Option LogEvent)) : PyGen (List LogEvent) :=
  ⟨fun _ => loggerPrintIterated lvl q⟩

/-- worker.py `Worker.log` (lines 508-514): evaluates
`self.logger.print(block=block, level=self.log_level)` and discards the
returned generator without iterating it.  The events actually printed by
the call. -/
def workerLogPrinted (lvl : LogLevel) (q : List (Option LogEvent)) : List LogEvent :=
  let g := loggerPrintCall lvl q
  let _unused := g
  []

/-- worker.py `Worker.start` with `block=True` (lines 462-467): after
launching the thread it runs `self.log(block=block)`; the events printed
on the main thread by the blocking call are those of `workerLogPrinted`. -/
def workerStartBlockPrinted (lvl : LogLevel) (q : List (Option LogEvent)) : List LogEvent :=
  workerLogPrinted lvl q

/-- realtime/worker.py `RealtimeWakeupService._handle_broadcast` (lines
118-144): extract the queue name from the payload (default "unknown");
ignore the broadcast when the queue is not monitored, otherwise set every
registered worker wake event.  Registered events are modelled by their
boolean set-state, in registration order. -/
def handle_broadcast (monitored : List String) (events : List Bool)
    (payloadQueue : Option String) : List Bool :=
  let q := payloadQueue.getD "unknown"
  if q ∈ monitored then events.map (fun _ => true) else events

/-! Theorems settling the claims. -/

/-- C2: a job whose runnable invocation raises with the attempt count
strictly below the effective max retries makes `Queue.work` perform no
archive and no delete (indeed, no `finish` at all) and re-raise the
original exception to its caller. -/
theorem work_retryable_failure_no_finalize (q : QueueCfg) (env : WorkEnv) (job : Job)
    (e : PyErr) (hrun : env.runResult = .error e)
    (hlt : job.attempt < effectiveMaxRetries q) :
    (work q env (some job)).fst.countP Action.isArchive = 0 ∧
    (work q env (some job)).fst.countP Action.isDelete = 0 ∧
    (work q env (some job)).fst.countP Action.isFinishCall = 0 ∧
    (work q env (some job)).snd = .error e := by
  obtain ⟨runR, finR, dlqR, onR⟩ := env
  dsimp only at hrun
  subst hrun
  have hnot : ¬ (effectiveMaxRetries q ≤ job.attempt) := by omega
  cases hoe : q.hasOnError <;> cases onR <;>
    simp [work, hnot, hoe, List.countP_append, List.countP_cons,
      Action.isArchive, Action.isDelete, Action.isFinishCall]

/-- C2 witness: a concrete failing job with retries remaining. -/
theorem work_retryable_failure_no_finalize_witness :
    ({ runResult := .error ⟨"RuntimeError", "boom"⟩, finishOpResult := .ok true,
       dlqSendResult := .ok 99, onErrorResult := .ok () } : WorkEnv).runResult
        = .error ⟨"RuntimeError", "boom"⟩ ∧
    (1 : Nat) < effectiveMaxRetries
      { name := "echo", worker_name := "peon", tags := [], delete_on_finish := false,
        max_retries := some 3, dlq := none, hasOnError := false } ∧
    (work
      { name := "echo", worker_name := "peon", tags := [], delete_on_finish := false,
        max_retries := some 3, dlq := none, hasOnError := false }
      { runResult := .error ⟨"RuntimeError", "boom"⟩, finishOpResult := .ok true,
        dlqSendResult := .ok 99, onErrorResult := .ok () }
      (some { id := 7, attempt := 1, data := [], popped := false })).snd
        = .error ⟨"RuntimeError", "boom"⟩ :=
  ⟨rfl, by decide,
    (work_retryable_failure_no_finalize
      { name := "echo", worker_name := "peon", tags := [], delete_on_finish := false,
        max_retries := some 3, dlq := none, hasOnError := false }
      { runResult := .error ⟨"RuntimeError", "boom"⟩, finishOpResult := .ok true,
        dlqSendResult := .ok 99, onErrorResult := .ok () }
      { id := 7, attempt := 1, data := [], popped := false }
      ⟨"RuntimeError", "boom"⟩ rfl (by decide)).2.2.2⟩

/-- C3: a job whose runnable invocation raises at or beyond the effective
max retries, with no DLQ configured, makes `Queue.work` emit a warning
log, call `finish` exactly once (one archive when `delete_on_finish` is
false, one delete when it is true, for a leased job), return none, and
propagate no exception. -/
theorem work_terminal_no_dlq_finalizes_once (q : QueueCfg) (env : WorkEnv) (job : Job)
    (e : PyErr) (hrun : env.runResult = .error e)
    (hge : effectiveMaxRetries q ≤ job.attempt) (hdlq : q.dlq = none) :
    (work q env (some job)).snd = .ok none ∧
    Action.log .warning "max_retries_no_dlq" ∈ (work q env (some job)).fst ∧
    (work q env (some job)).fst.countP Action.isFinishCall = 1 ∧
    (job.popped = false →
      (work q env (some job)).fst.countP Action.isArchive
        = (if q.delete_on_finish then 0 else 1) ∧
      (work q env (some job)).fst.countP Action.isDelete
        = (if q.delete_on_finish then 1 else 0)) := by
  obtain ⟨runR, finR, dlqR, onR⟩ := env
  dsimp only at hrun
  subst hrun
  cases hoe : q.hasOnError <;> cases onR <;> cases hp : job.popped <;>
    cases hdof : q.delete_on_finish <;> cases finR <;>
    simp [work, finish, hge, hdlq, hoe, hp, hdof, List.countP_append, List.countP_cons,
      Action.isArchive, Action.isDelete, Action.isFinishCall]

/-- C3 witness: a concrete exhausted job on a queue without a DLQ is
archived once and `work` returns none. -/
theorem work_terminal_no_dlq_finalizes_once_witness :
    ({ runResult := .error ⟨"RuntimeError", "boom"⟩, finishOpResult := .ok true,
       dlqSendResult := .ok 99, onErrorResult := .ok () } : WorkEnv).runResult
        = .error ⟨"RuntimeError", "boom"⟩ ∧
    effectiveMaxRetries
      { name := "echo", worker_name := "peon", tags := [], delete_on_finish := false,
        max_retries := some 2, dlq := none, hasOnError := false } ≤ 2 ∧
    ((work
      { name := "echo", worker_name := "peon", tags := [], delete_on_finish := false,
        max_retries := some 2, dlq := none, hasOnError := false }
      { runResult := .error ⟨"RuntimeError", "boom"⟩, finishOpResult := .ok true,
        dlqSendResult := .ok 99, onErrorResult := .ok () }
      (some { id := 7, attempt := 2, data := [], popped := false })).snd = .ok none ∧
     (work
      { name := "echo", worker_name := "peon", tags := [], delete_on_finish := false,
        max_retries := some 2, dlq := none, hasOnError := false }
      { runResult := .error ⟨"RuntimeError", "boom"⟩, finishOpResult := .ok true,
        dlqSendResult := .ok 99, onErrorResult := .ok () }
      (some { id := 7, attempt := 2, data := [], popped := false })).fst.countP
        Action.isArchive = (if false then 0 else 1)) :=
  ⟨rfl, by decide,
    (work_terminal_no_dlq_finalizes_once
      { name := "echo", worker_name := "peon", tags := [], delete_on_finish := false,
        max_retries := some 2, dlq := none, hasOnError := false }
      { runResult := .error ⟨"RuntimeError", "boom"⟩, finishOpResult := .ok true,
        dlqSendResult := .ok 99, onErrorResult := .ok () }
      { id := 7, attempt := 2, data := [], popped := false }
      ⟨"RuntimeError", "boom"⟩ rfl (by decide) rfl).1,
    ((work_terminal_no_dlq_finalizes_once
      { name := "echo", worker_name := "peon", tags := [], delete_on_finish := false,
        max_retries := some 2, dlq := none, hasOnError := false }
      { runResult := .error ⟨"RuntimeError", "boom"⟩, finishOpResult := .ok true,
        dlqSendResult := .ok 99, onErrorResult := .ok () }
      { id := 7, attempt := 2, data := [], popped := false }
      ⟨"RuntimeError", "boom"⟩ rfl (by decide) rfl).2.2.2 rfl).1⟩

/-- C1 counterexample: when the DLQ send raises, the bare `raise` inside
`except Exception as dlq_error` re-raises the DLQ send error, not the
original runnable exception, so the claim as stated fails at this
concrete input. -/
theorem work_dlq_send_failure_cex :
    (work
      { name := "echo", worker_name := "peon", tags := [], delete_on_finish := false,
        max_retries := some 2, dlq := some "echo_dlq", hasOnError := false }
      { runResult := .error ⟨"RuntimeError", "boom"⟩, finishOpResult := .ok true,
        dlqSendResult := .error ⟨"ConnectionError", "dlq down"⟩, onErrorResult := .ok () }
      (some { id := 7, attempt := 2, data := [], popped := false })).snd
        = .error ⟨"ConnectionError", "dlq down"⟩ ∧
    (⟨"ConnectionError", "dlq down"⟩ : PyErr) ≠ ⟨"RuntimeError", "boom"⟩ :=
  ⟨rfl, by decide⟩

/-- C1 amended: when the runnable raises at or beyond the effective max
retries, a DLQ is configured and the DLQ send itself raises, `Queue.work`
logs the DLQ error, does not finalize the job (no finish, no archive, no
delete), and re-raises the DLQ send error to its caller, so an exception
still propagates and the lease is left to expire. -/
theorem work_dlq_send_failure_reraises_dlq_error (q : QueueCfg) (env : WorkEnv)
    (job : Job) (e de : PyErr) (d : String)
    (hdlq : q.dlq = some d) (hrun : env.runResult = .error e)
    (hsend : env.dlqSendResult = .error de)
    (hge : effectiveMaxRetries q ≤ job.attempt) :
    (work q env (some job)).snd = .error de ∧
    Action.log .error "failed_to_send_to_dlq" ∈ (work q env (some job)).fst ∧
    (work q env (some job)).fst.countP Action.isFinishCall = 0 ∧
    (work q env (some job)).fst.countP Action.isArchive = 0 ∧
    (work q env (some job)).fst.countP Action.isDelete = 0 := by
  obtain ⟨runR, finR, dlqR, onR⟩ := env
  dsimp only at hrun hsend
  subst hrun
  subst hsend
  cases hoe : q.hasOnError <;> cases onR <;>
    simp [work, send_to_dlq, hge, hdlq, hoe, List.countP_append, List.countP_cons,
      Action.isArchive, Action.isDelete, Action.isFinishCall]

/-- C1 amended witness: a concrete exhausted job whose DLQ send fails. -/
theorem work_dlq_send_failure_reraises_dlq_error_witness :
    ({ name := "echo", worker_name := "peon", tags := [], delete_on_finish := false,
       max_retries := some 2, dlq := some "echo_dlq", hasOnError := false } : QueueCfg).dlq
        = some "echo_dlq" ∧
    (work
      { name := "echo", worker_name := "peon", tags := [], delete_on_finish := false,
        max_retries := some 2, dlq := some "echo_dlq", hasOnError := false }
      { runResult := .error ⟨"RuntimeError", "boom"⟩, finishOpResult := .ok true,
        dlqSendResult := .error ⟨"ConnectionError", "dlq down"⟩, onErrorResult := .ok () }
      (some { id := 7, attempt := 2, data := [], popped := false })).snd
        = .error ⟨"ConnectionError", "dlq down"⟩ :=
  ⟨rfl,
    (work_dlq_send_failure_reraises_dlq_error
      { name := "echo", worker_name := "peon", tags := [], delete_on_finish := false,
        max_retries := some 2, dlq := some "echo_dlq", hasOnError := false }
      { runResult := .error ⟨"RuntimeError", "boom"⟩, finishOpResult := .ok true,
        dlqSendResult := .error ⟨"ConnectionError", "dlq down"⟩, onErrorResult := .ok () }
      { id := 7, attempt := 2, data := [], popped := false }
      ⟨"RuntimeError", "boom"⟩ ⟨"ConnectionError", "dlq down"⟩ "echo_dlq"
      rfl rfl rfl (by decide)).1⟩

/-- C10: on the success path the result of `Queue.work` is the runnable
output even when the finalization provider call raises: the error is
logged, `finish` reports false, no exception propagates, and the caller
sees the same value as with a succeeding finalization. -/
theorem work_success_finish_failure_invisible (q : QueueCfg) (job : Job) (v : Val)
    (fe : PyErr) (env1 env2 : WorkEnv)
    (h1 : env1.runResult = .ok v) (hf1 : env1.finishOpResult = .error fe)
    (h2 : env2.runResult = .ok v) (hf2 : env2.finishOpResult = .ok true)
    (hp : job.popped = false) :
    (work q env1 (some job)).snd = .ok (some v) ∧
    (work q env2 (some job)).snd = (work q env1 (some job)).snd ∧
    (finish q env1 job).snd = false ∧
    Action.log .error "error_finishing_job" ∈ (work q env1 (some job)).fst := by
  obtain ⟨runR, finR, dlqR, onR⟩ := env1
  obtain ⟨runR2, finR2, dlqR2, onR2⟩ := env2
  dsimp only at h1 hf1 h2 hf2
  subst h1; subst hf1; subst h2; subst hf2
  cases hdof : q.delete_on_finish <;> simp [work, finish, hp, hdof]

/-- C10 witness: a concrete successful job whose archive call raises. -/
theorem work_success_finish_failure_invisible_witness :
    ({ runResult := .ok (.nat 5), finishOpResult := .error ⟨"APIError", "db down"⟩,
       dlqSendResult := .ok 99, onErrorResult := .ok () } : WorkEnv).runResult
        = .ok (.nat 5) ∧
    (work
      { name := "echo", worker_name := "peon", tags := [], delete_on_finish := false,
        max_retries := none, dlq := none, hasOnError := false }
      { runResult := .ok (.nat 5), finishOpResult := .error ⟨"APIError", "db down"⟩,
        dlqSendResult := .ok 99, onErrorResult := .ok () }
      (some { id := 7, attempt := 1, data := [], popped := false })).snd
        = .ok (some (.nat 5)) :=
  ⟨rfl,
    (work_success_finish_failure_invisible
      { name := "echo", worker_name := "peon", tags := [], delete_on_finish := false,
        max_retries := none, dlq := none, hasOnError := false }
      { id := 7, attempt := 1, data := [], popped := false }
      (.nat 5) ⟨"APIError", "db down"⟩
      { runResult := .ok (.nat 5), finishOpResult := .error ⟨"APIError", "db down"⟩,
        dlqSendResult := .ok 99, onErrorResult := .ok () }
      { runResult := .ok (.nat 5), finishOpResult := .ok true,
        dlqSendResult := .ok 99, onErrorResult := .ok () }
      rfl rfl rfl rfl rfl).1⟩

/-- Looking up the filtered-out key in the filtered payload finds
nothing. -/
theorem dictGet_filterOut (key : String) (l : List (String × Val)) :
    dictGet key (l.filter fun kv => !(kv.fst == key)) = none := by
  induction l with
  | nil => rfl
  | cons kv rest ih =>
    by_cases h : kv.fst = key
    · simpa [List.filter_cons, h] using ih
    · simpa [List.filter_cons, h, dictGet] using ih

/-- Looking up any other key is unaffected by filtering one key out. -/
theorem dictGet_filterOut_ne (key k : String) (hne : k ≠ key)
    (l : List (String × Val)) :
    dictGet k (l.filter fun kv => !(kv.fst == key)) = dictGet k l := by
  induction l with
  | nil => rfl
  | cons kv rest ih =>
    by_cases h : kv.fst = key
    · have hk2 : key ≠ k := fun hkk => hne hkk.symm
      simpa [List.filter_cons, h, dictGet, hk2] using ih
    · by_cases hk : kv.fst = k
      · simp [List.filter_cons, h, dictGet, hk, hne]
      · simpa [List.filter_cons, h, dictGet, hk] using ih

/-- C4: the config built by `Queue.get_runtime_config` carries the
payload-supplied `thread_id` when present and the synthesized
`job-<id>` string otherwise, and the input `Queue.run` passes to
`runnable.invoke` is the payload with the `thread_id` key removed and
every other key intact (the key is moved, not copied). -/
theorem thread_id_moved (q : QueueCfg) (job : Job) :
    (get_runtime_config q job).configurable_thread_id
      = (dictGet "thread_id" job.data).getD (Val.str ("job-" ++ toString job.id)) ∧
    dictGet "thread_id" (run_input job) = none ∧
    ∀ k, k ≠ "thread_id" → dictGet k (run_input job) = dictGet k job.data := by
  refine ⟨?_, dictGet_filterOut _ _, fun k hk => dictGet_filterOut_ne _ _ hk _⟩
  cases h : dictGet "thread_id" job.data <;> simp [get_runtime_config, h]

/-- C4 witness: a concrete payload carrying a `thread_id` and one other
key. -/
theorem thread_id_moved_witness :
    ("x" : String) ≠ "thread_id" ∧
    dictGet "x" (run_input
      { id := 7, attempt := 1,
        data := [("thread_id", Val.str "t1"), ("x", Val.nat 1)], popped := false })
      = dictGet "x" [("thread_id", Val.str "t1"), ("x", Val.nat 1)] :=
  ⟨by decide,
    (thread_id_moved
      { name := "echo", worker_name := "peon", tags := [], delete_on_finish := false,
        max_retries := none, dlq := none, hasOnError := false }
      { id := 7, attempt := 1,
        data := [("thread_id", Val.str "t1"), ("x", Val.nat 1)], popped := false }).2.2
      "x" (by decide)⟩

/-- C5 counterexample: a `Queue.work` call that completes without raising
but returns None (here after a prior failure left the counter at 1) does
not reset the consecutive-failure counter, so the claim as stated fails
at this concrete input. -/
theorem dispatch_nil_success_cex :
    (dispatchQueue 10 "echo"
      { consecutive_failures := fun _ => 1, current_backoff := 40,
        found_jobs := false, had_errors := false }
      (.ok none)).consecutive_failures "echo" ≠ 0 := by
  decide

/-- C5 amended: the worker loop resets a queue's consecutive-failure
counter to 0 and `current_backoff` to `idle_wait` exactly when the
dispatch returns a non-None result; a dispatch that successfully returns
None leaves the loop state unchanged. -/
theorem dispatch_success_reset_amended (idle_wait : ℚ) (qname : String)
    (st : LoopState) (v : Val) :
    (dispatchQueue idle_wait qname st (.ok (some v))).consecutive_failures qname = 0 ∧
    (dispatchQueue idle_wait qname st (.ok (some v))).current_backoff = idle_wait ∧
    dispatchQueue idle_wait qname st (.ok none) = st := by
  refine ⟨?_, rfl, rfl⟩
  simp [dispatchQueue]

/-- C6: `Logger.print` is a generator function, and `Worker.log`
discards the generator it returns without iterating it, so
`Worker.start(block=True)` prints and consumes nothing: with one pending
info event followed by the stop sentinel, the blocking start prints no
events while the drain the claim requires would print that event. -/
theorem start_block_does_not_drain_logger :
    workerStartBlockPrinted .info [some ⟨.info, "hello"⟩, none] = [] ∧
    loggerPrintIterated .info [some ⟨.info, "hello"⟩, none] = [⟨.info, "hello"⟩] :=
  ⟨rfl, rfl⟩

/-- C7 counterexample: for the default configured queue timeout of 300 s
the join timeout used by `Worker.stop` is neither about 5 s beyond it nor
beyond it at all, so the claim as stated fails at this concrete
configuration. -/
theorem stop_join_timeout_cex :
    stopJoinTimeout < (queueDefaultTimeout : ℚ) ∧
    stopJoinTimeout ≠ (queueDefaultTimeout : ℚ) + 5 := by
  constructor <;> norm_num [stopJoinTimeout, queueDefaultTimeout]

/-- C7 amended: `Worker.stop` joins the worker loop thread with a fixed
10-second timeout independent of any configured queue timeout, and when
the join times out it logs a warning and neither exits the process nor
raises. -/
theorem stop_join_fixed_timeout_warns :
    stopJoinTimeout = 10 ∧
    (stopAfterJoin true).warned = true ∧
    (stopAfterJoin true).exited = false ∧
    (stopAfterJoin false).exited = false ∧
    (stopAfterJoin true).raised = false ∧
    (stopAfterJoin false).raised = false :=
  ⟨rfl, rfl, rfl, rfl, rfl, rfl⟩

/-- The sleep loop performs at most `fuel` further ticks. -/
theorem sleepLoop_le (running wake : Nat → Bool) :
    ∀ (fuel i : Nat), (sleepLoop running wake i fuel).fst ≤ i + fuel := by
  intro fuel
  induction fuel with
  | zero => intro i; simp [sleepLoop]
  | succ n ih =>
    intro i
    simp only [sleepLoop]
    split
    · simp
    · split
      · simp
      · have := ih (i + 1)
        omega

/-- Once the running flag reads false at tick `k`, the sleep loop exits
by tick `k`. -/
theorem sleepLoop_shutdown_le (running wake : Nat → Bool) (k : Nat)
    (hk : running k = false) :
    ∀ (fuel i : Nat), i ≤ k → (sleepLoop running wake i fuel).fst ≤ k := by
  intro fuel
  induction fuel with
  | zero => intro i hi; simpa [sleepLoop] using hi
  | succ n ih =>
    intro i hi
    simp only [sleepLoop]
    split
    · simpa using hi
    · split
      · simpa using hi
      · rename_i hrun _
        have hik : i ≠ k := fun hik => by
          rw [hik] at hrun
          exact hrun hk
        exact ih (i + 1) (by omega)

/-- With the running flag held, the sleep loop exits by the tick the wake
event reads true at. -/
theorem sleepLoop_wake_le (running wake : Nat → Bool) (k : Nat)
    (hk : wake k = true) :
    ∀ (fuel i : Nat), i ≤ k → (sleepLoop running wake i fuel).fst ≤ k := by
  intro fuel
  induction fuel with
  | zero => intro i hi; simpa [sleepLoop] using hi
  | succ n ih =>
    intro i hi
    simp only [sleepLoop]
    split
    · simpa using hi
    · split
      · simpa using hi
      · rename_i hwake
        have hik : i ≠ k := fun hik => by
          rw [hik] at hwake
          exact hwake hk
        exact ih (i + 1) (by omega)

/-- C8: the interruptible idle sleep polls for at most its backoff window
of 100 ms ticks; it ends by the tick at which the running flag clears,
and, with the running flag held, by the tick at which the wake event is
seen set; when it ends through the wake event, `current_backoff` is reset
to `idle_wait` before the next pass. -/
theorem idle_sleep_bounds (running wake : Nat → Bool) (b k : Nat) (iw cb : ℚ) :
    (idleSleep running wake b iw cb).elapsed ≤ b ∧
    (running k = false → (idleSleep running wake b iw cb).elapsed ≤ k) ∧
    ((∀ j, running j = true) → wake k = true →
      (idleSleep running wake b iw cb).elapsed ≤ k) ∧
    ((idleSleep running wake b iw cb).reason = .wake →
      (idleSleep running wake b iw cb).backoff = iw) := by
  refine ⟨?_, ?_, ?_, ?_⟩
  · simpa [idleSleep] using sleepLoop_le running wake b 0
  · intro h
    simpa [idleSleep] using sleepLoop_shutdown_le running wake k h b 0 (Nat.zero_le k)
  · intro _ h2
    simpa [idleSleep] using sleepLoop_wake_le running wake k h2 b 0 (Nat.zero_le k)
  · intro h
    simp only [idleSleep] at h ⊢
    rw [if_pos h]

/-- C8 witness: running held, wake event first seen at tick 2 inside a
10-tick backoff window; the sleep ends by tick 2 and resets the backoff
to `idle_wait`. -/
theorem idle_sleep_bounds_witness :
    (idleSleep (fun _ => true) (fun i => decide (2 ≤ i)) 10 1 7).elapsed ≤ 2 ∧
    (idleSleep (fun _ => true) (fun i => decide (2 ≤ i)) 10 1 7).backoff = 1 :=
  ⟨(idle_sleep_bounds (fun _ => true) (fun i => decide (2 ≤ i)) 10 2 1 7).2.2.1
      (fun _ => rfl) (by decide),
   (idle_sleep_bounds (fun _ => true) (fun i => decide (2 ≤ i)) 10 2 1 7).2.2.2
      (by decide)⟩

/-- C9: a broadcast whose payload queue is not in the monitored set
leaves every registered wake event as it was; a broadcast for a monitored
queue sets every registered wake event. -/
theorem handle_broadcast_filter_fanout (monitored : List String)
    (events : List Bool) (payloadQueue : Option String) :
    (payloadQueue.getD "unknown" ∉ monitored →
      handle_broadcast monitored events payloadQueue = events) ∧
    (payloadQueue.getD "unknown" ∈ monitored →
      ∀ b ∈ handle_broadcast monitored events payloadQueue, b = true) := by
  constructor
  · intro h
    simp [handle_broadcast, h]
  · intro h
    simp [handle_broadcast, h]

/-- C9 witness: two registered, unset wake events; an unmonitored queue
name leaves both unset, a monitored one sets both. -/
theorem handle_broadcast_filter_fanout_witness :
    handle_broadcast ["alpha", "beta"] [false, false] (some "gamma") = [false, false] ∧
    (∀ b ∈ handle_broadcast ["alpha", "beta"] [false, false] (some "alpha"), b = true) :=
  ⟨(handle_broadcast_filter_fanout ["alpha", "beta"] [false, false] (some "gamma")).1
      (by decide),
   (handle_broadcast_filter_fanout ["alpha", "beta"] [false, false] (some "alpha")).2
      (by decide)⟩

end AIMQ
